import Mathlib

/-!
Verification of the lazy async dataframe core of data-forge-ts.

The repository ships only the declaration surface of `AsyncDataFrame`
(src/build/lib/async/async-dataframe.d.ts); the implementation behind it is
not part of the sources. The definitions below therefore model the engine
from the design document: lazy async pull sequences become finite lists
together with a restartable/single-use flag, dataframes become the canonical
resolved triple of index source, value source and captured column names, and
the transform and materialization operations are translated operation by
operation from the documented contracts.
-/

namespace DataForge

/-- Error conditions surfaced while pulling a lazy sequence (§7 of the design:
the missing-column condition raised by a series derived via `getSeries`). -/
inductive DFError where
  | missingColumn (name : String)
deriving DecidableEq, Repr

/-- Modelled from the spec: an asynchronous lazy pull sequence (§4.2 and the
glossary), the part of the engine the d.ts file only declares. `items` is the
sequence of elements a first full drain yields, in order; `restartable`
records whether the source can be iterated again and yield the same items
(array-backed) or is single-use (a second full iteration yields an empty
sequence, the documented hazard of §4.2). -/
structure Source (α : Type) where
  items : List α
  restartable : Bool
deriving DecidableEq, Repr

namespace Source

/-- Modelled from the spec: a restartable source backed by a dense array
(§4.2: iterating multiple times is safe when the source is array-backed). -/
def ofArray {α : Type} (xs : List α) : Source α :=
  ⟨xs, true⟩

/-- Modelled from the spec: one full drain of the source (§4.2): it yields the
items in order together with the source as the drain leaves it — unchanged when
restartable, exhausted (yielding an empty sequence from then on) when
single-use. -/
def drain {α : Type} (s : Source α) : List α × Source α :=
  (s.items, if s.restartable then s else ⟨[], false⟩)

/-- Lazily transform each element together with its zero-based position in the
sequence; the wrapper replays the transformation on each pull and keeps the
restartability of the source it wraps. -/
def select {α β : Type} (f : α → Nat → β) (s : Source α) : Source β :=
  ⟨s.items.mapIdx (fun i v => f v i), s.restartable⟩

/-- Lazily discard the first `n` elements of the source; fewer than `n`
elements yields an empty sequence, not an error. -/
def drop {α : Type} (n : Nat) (s : Source α) : Source α :=
  ⟨s.items.drop n, s.restartable⟩

end Source

/-- A row value keyed by column name: the object-keyed row-shape contract the
design fixes for `toRows` and `getSeries` (§4.4 and the §9 note on
row-to-column projection). A lookup of an absent key yields `none`, the
embedding of an undefined field. -/
abbrev Row (V : Type) : Type := List (String × V)

/-- The value a row holds for a column name, `none` when the row has no such
field. -/
def Row.field {V : Type} (r : Row V) (c : String) : Option V :=
  List.lookup c r

/-- Modelled from the spec: the canonical resolved form of a dataframe (§3 and
the §9 note on polymorphism over input shape): every construction branch is
resolved once into an index source, a value source, and the captured column
names; all operations read only this form. -/
structure AsyncDataFrame (IndexT ValueT : Type) where
  index : Source IndexT
  values : Source ValueT
  columnNames : List String
deriving DecidableEq, Repr

/-- Modelled from the spec: the single inferred column name used when
`columnNames` is omitted and rows are scalar (§4.1); the design leaves the
literal to convention and no documented contract depends on it. -/
def defaultColumnNames : List String := ["value"]

namespace AsyncDataFrame

/-- Modelled from the spec: the values-branch of the constructor (§4.1): when
`values` is supplied and `index` is not, the index defaults to the integer
sequence starting at 0, generated in lock-step with value consumption. -/
def fromValues {ValueT : Type} (values : List ValueT) (columnNames : List String) :
    AsyncDataFrame Nat ValueT :=
  ⟨Source.ofArray (List.range values.length), Source.ofArray values, columnNames⟩

/-- Modelled from the spec: `new DataFrame(array)` (§4.1): a plain array is
shorthand for `{values: array}`, with the default zero-based index and the
single inferred column name. -/
def fromArray {ValueT : Type} (values : List ValueT) : AsyncDataFrame Nat ValueT :=
  fromValues values defaultColumnNames

/-- Modelled from the spec: `getIndex()` (§3): a read-only view of the
dataframe's index sequence. -/
def getIndex {IndexT ValueT : Type} (df : AsyncDataFrame IndexT ValueT) : Source IndexT :=
  df.index

/-- Modelled from the spec: `[Symbol.asyncIterator]` — iterating the dataframe
directly pulls its value sequence (the d.ts declares the iterator at element
type `ValueT`); this is the sequence one full direct iteration yields. -/
def asyncIterate {IndexT ValueT : Type} (df : AsyncDataFrame IndexT ValueT) : List ValueT :=
  df.values.items

/-- Modelled from the spec: `toArray()` (§4.4): consumes the value sequence,
in order, into a dense ordered sequence; does not retain the index. -/
def toArray {IndexT ValueT : Type} (df : AsyncDataFrame IndexT ValueT) : List ValueT :=
  df.asyncIterate

/-- Modelled from the spec: `toPairs()` (§4.4): consumes the combined
sequence into ordered (index, value) tuples, pairing the two sequences in
lock-step and stopping at the end of the shorter one (the documented
length-mismatch policy of §7). -/
def toPairs {IndexT ValueT : Type} (df : AsyncDataFrame IndexT ValueT) :
    List (IndexT × ValueT) :=
  df.index.items.zip df.values.items

/-- Modelled from the spec: `select(selector)` (§4.3): a new dataframe whose
value sequence applies `selector(value, index)` to each item lazily, with the
index sequence and column names unchanged. -/
def select {IndexT ValueT ToT : Type} (df : AsyncDataFrame IndexT ValueT)
    (selector : ValueT → Nat → ToT) : AsyncDataFrame IndexT ToT :=
  ⟨df.index, df.values.select selector, df.columnNames⟩

/-- Modelled from the spec: `skip(numValues)` (§4.3): a new dataframe whose
combined (index, value) sequence discards its first `numValues` items; fewer
items than `numValues` yields an empty result, not an error. -/
def skip {IndexT ValueT : Type} (df : AsyncDataFrame IndexT ValueT) (numValues : Nat) :
    AsyncDataFrame IndexT ValueT :=
  ⟨df.index.drop numValues, df.values.drop numValues, df.columnNames⟩

/-- Modelled from the spec: `withIndex(newIndex)` (§4.3): a new dataframe with
the index sequence replaced wholesale and the value sequence unchanged; no
re-pairing or length validation happens at the call. -/
def withIndex {IndexT ValueT NewIndexT : Type} (df : AsyncDataFrame IndexT ValueT)
    (newIndex : Source NewIndexT) : AsyncDataFrame NewIndexT ValueT :=
  ⟨newIndex, df.values, df.columnNames⟩

/-- Modelled from the spec: `resetIndex()` (§4.3): a new dataframe whose index
is the default zero-based sequential integer index, generated in lock-step
with the value sequence. -/
def resetIndex {IndexT ValueT : Type} (df : AsyncDataFrame IndexT ValueT) :
    AsyncDataFrame Nat ValueT :=
  ⟨Source.ofArray (List.range df.values.items.length), df.values, df.columnNames⟩

end AsyncDataFrame

/-- Modelled from the spec: the series derived by `getSeries(columnName)`
(§4.3): structurally a single-column view — the dataframe's index, its row
sequence, the requested column name, and the captured column names against
which the name is checked lazily. No check happens while constructing the
view. -/
structure AsyncSeries (IndexT V : Type) where
  index : Source IndexT
  rows : Source (Row V)
  columnName : String
  columnNames : List String
deriving DecidableEq, Repr

namespace AsyncSeries

/-- Modelled from the spec: iterating / materializing the derived series
(§4.3 and §7): the missing-column condition is detected lazily, at the first
pull of the series, by checking the requested name against the captured
column names; a present name projects that field from each row in order. -/
def toArray {IndexT V : Type} (s : AsyncSeries IndexT V) :
    Except DFError (List (Option V)) :=
  if s.columnName ∈ s.columnNames then
    Except.ok (s.rows.items.map (fun r => Row.field r s.columnName))
  else
    Except.error (DFError.missingColumn s.columnName)

end AsyncSeries

/-- Modelled from the spec: the eager, always-restartable table `bake()`
produces (§4.4 and the §9 lazy/eager duality note): the same
column/index/value contract, backed by fully materialized restartable
sequences, with no further suspension on repeat iteration. -/
structure DataFrame (IndexT ValueT : Type) where
  index : Source IndexT
  values : Source ValueT
  columnNames : List String
deriving DecidableEq, Repr

/-- Modelled from the spec: `toArray()` on the eager baked table: one drain of
its value sequence, returning the values and the table as the drain leaves
it. -/
def DataFrame.drainArray {IndexT ValueT : Type} (d : DataFrame IndexT ValueT) :
    List ValueT × DataFrame IndexT ValueT :=
  let q := d.values.drain
  (q.1, ⟨d.index, q.2, d.columnNames⟩)

namespace AsyncDataFrame

/-- Modelled from the spec: `getSeries(columnName)` (§4.3): returns the
single-column view projecting the named column; the call itself only captures
the pieces of the view and never checks the name or pulls the source. -/
def getSeries {IndexT V : Type} (df : AsyncDataFrame IndexT (Row V)) (columnName : String) :
    AsyncSeries IndexT V :=
  ⟨df.index, df.values, columnName, df.columnNames⟩

/-- Modelled from the spec: `toRows()` (§4.4): consumes the value sequence
and, using the captured column names, projects each object-keyed row into a
fixed-order array of column-ordered fields. -/
def toRows {IndexT V : Type} (df : AsyncDataFrame IndexT (Row V)) :
    List (List (Option V)) :=
  df.values.items.map (fun r => df.columnNames.map (fun c => Row.field r c))

/-- Modelled from the spec: one full drain of the dataframe's value sequence
through its iterator (§4.2 and §4.4): the values, and the dataframe as the
drain leaves its single-use or restartable source. -/
def drainArray {IndexT ValueT : Type} (df : AsyncDataFrame IndexT ValueT) :
    List ValueT × AsyncDataFrame IndexT ValueT :=
  let q := df.values.drain
  (q.1, ⟨df.index, q.2, df.columnNames⟩)

/-- Modelled from the spec: `bake()` (§4.4): consumes the full index and value
sequences once and returns the eagerly-backed table — every sequence of the
result is array-backed, hence restartable — together with the dataframe as
the consuming drain leaves it. -/
def bake {IndexT ValueT : Type} (df : AsyncDataFrame IndexT ValueT) :
    DataFrame IndexT ValueT × AsyncDataFrame IndexT ValueT :=
  let p := df.index.drain
  let q := df.values.drain
  (⟨Source.ofArray p.1, Source.ofArray q.1, df.columnNames⟩, ⟨p.2, q.2, df.columnNames⟩)

end AsyncDataFrame

/-- Looking up a position in an index-aware map: the element at position `i`
of `l.mapIdx g` is the element of `l` there, transformed by `g i`. -/
theorem get?_mapIdx {α β : Type} (l : List α) (g : Nat → α → β) (i : Nat) :
    (l.mapIdx g).get? i = (l.get? i).map (g i) := by
  rw [List.mapIdx_eq_enum_map, List.get?_map, List.get?_enum]
  cases l.get? i <;> simp [Function.uncurry]

/-- C1: the default-constructed index of `DataFrame(a)` iterates as exactly
the zero-based integer sequence `[0, 1, ..., len(a)-1]`, and `toPairs()`
pairs value `a[i]` with index `i`. -/
theorem default_index_enumerates_from_zero {β : Type} (a : List β) :
    (AsyncDataFrame.fromArray a).getIndex.items = List.range a.length ∧
    (AsyncDataFrame.fromArray a).toPairs = a.enum ∧
    ∀ i v, a.get? i = some v →
      (AsyncDataFrame.fromArray a).toPairs.get? i = some (i, v) := by
  have hpairs : (AsyncDataFrame.fromArray a).toPairs = a.enum := by
    simp [AsyncDataFrame.fromArray, AsyncDataFrame.fromValues, AsyncDataFrame.toPairs,
      Source.ofArray, List.enum_eq_zip_range]
  refine ⟨rfl, hpairs, ?_⟩
  intro i v h
  rw [hpairs, List.get?_enum, h]
  rfl

/-- Witness for C1 at the spec scenario `new DataFrame([10,20,30])`. -/
theorem default_index_enumerates_from_zero_witness :
    (AsyncDataFrame.fromArray ([10, 20, 30] : List Int)).toPairs.get? 1 = some (1, 20) :=
  (default_index_enumerates_from_zero ([10, 20, 30] : List Int)).2.2 1 20 (by decide)

/-- C2: `DataFrame(a).toArray()` returns the sequence `a` itself, element for
element and in order, containing only the values. -/
theorem toArray_returns_values_in_order {β : Type} (a : List β) :
    (AsyncDataFrame.fromArray a).toArray = a :=
  rfl

/-- C10: iterating a dataframe directly through its async iterator yields only
the row values, the same sequence `toArray()` produces; the (index, value)
pairs are reached through `toPairs()`, whose value projection agrees with the
direct iteration when the index and value sequences have equal length. -/
theorem asyncIterator_yields_values {α β : Type} (df : AsyncDataFrame α β) :
    df.asyncIterate = df.toArray ∧
    (df.getIndex.items.length = df.toArray.length →
      df.toPairs.map Prod.snd = df.asyncIterate) := by
  refine ⟨rfl, ?_⟩
  intro h
  exact List.map_snd_zip _ _ (le_of_eq h.symm)

/-- C3: `select(f)` is order- and index-preserving: the `i`-th (index, value)
pair of `df.select(f)` is `(idx_i, f(val_i, i))` where `(idx_i, val_i)` is the
`i`-th pair of `df`, and the column names are unchanged. -/
theorem select_preserves_index_and_order {α β γ : Type} (df : AsyncDataFrame α β)
    (f : β → Nat → γ) :
    (df.select f).columnNames = df.columnNames ∧
    (df.select f).getIndex = df.getIndex ∧
    ∀ i x v, df.toPairs.get? i = some (x, v) →
      (df.select f).toPairs.get? i = some (x, f v i) := by
  refine ⟨rfl, rfl, ?_⟩
  intro i x v h
  rw [AsyncDataFrame.toPairs, List.get?_zip_eq_some] at h
  rw [AsyncDataFrame.select, AsyncDataFrame.toPairs, List.get?_zip_eq_some]
  exact ⟨h.1, by rw [Source.select, get?_mapIdx, h.2]; rfl⟩

/-- Witness for C3: doubling each value of `DataFrame([7,8])` keeps pair 1's
index and transforms its value. -/
theorem select_preserves_index_and_order_witness :
    ((AsyncDataFrame.fromArray ([7, 8] : List Int)).select (fun v _ => 2 * v)).toPairs.get? 1
      = some (1, 16) :=
  (select_preserves_index_and_order (AsyncDataFrame.fromArray ([7, 8] : List Int))
    (fun v _ => 2 * v)).2.2 1 1 8 (by decide)

/-- C4: `skip(n)` yields exactly the (index, value) sequence of the original
with its first `n` items discarded — the last `max(0, L-n)` items in order —
and when `n ≥ L` the result is empty, with no error raised. -/
theorem skip_discards_first_items {α β : Type} (df : AsyncDataFrame α β) (n : Nat) :
    (df.skip n).toPairs = df.toPairs.drop n ∧
    (df.skip n).toPairs.length = df.toPairs.length - n ∧
    (df.toPairs.length ≤ n → (df.skip n).toPairs = []) := by
  have h1 : (df.skip n).toPairs = df.toPairs.drop n := by
    simp [AsyncDataFrame.skip, AsyncDataFrame.toPairs, Source.drop, List.zip_eq_zipWith,
      List.drop_zipWith]
  refine ⟨h1, by rw [h1, List.length_drop], ?_⟩
  intro h
  rw [h1]
  exact List.drop_eq_nil_of_le h

/-- Witness for C4: skipping past the end of the spec-scenario dataframe
`{values:[1,2,3,4], index:['a','b','c','d']}` yields an empty pair sequence. -/
theorem skip_discards_first_items_witness :
    ((⟨Source.ofArray ["a", "b", "c", "d"], Source.ofArray ([1, 2, 3, 4] : List Int),
        defaultColumnNames⟩ : AsyncDataFrame String Int).skip 5).toPairs = [] :=
  (skip_discards_first_items
    (⟨Source.ofArray ["a", "b", "c", "d"], Source.ofArray ([1, 2, 3, 4] : List Int),
        defaultColumnNames⟩ : AsyncDataFrame String Int) 5).2.2 (by decide)

/-- C5: `withIndex(ni)` replaces the index wholesale, leaves the value
sequence unchanged, and iterates as the position-wise pairing of `ni` with the
values, stopping at the shorter of the two sequences, with no error and no
length validation at the call. -/
theorem withIndex_replaces_index_truncating {α β γ : Type} (df : AsyncDataFrame α β)
    (ni : Source γ) :
    (df.withIndex ni).getIndex = ni ∧
    (df.withIndex ni).toArray = df.toArray ∧
    (df.withIndex ni).toPairs = ni.items.zip df.toArray ∧
    (df.withIndex ni).toPairs.length = min ni.items.length df.toArray.length := by
  refine ⟨rfl, rfl, rfl, ?_⟩
  simp [AsyncDataFrame.withIndex, AsyncDataFrame.toPairs, AsyncDataFrame.toArray,
    AsyncDataFrame.asyncIterate]

/-- C6: after any `withIndex`, `resetIndex()` restores exactly the default
zero-based integer index of the value sequence's length, and `resetIndex()`
equals `withIndex` applied to that default integer sequence. -/
theorem resetIndex_restores_default_index {α β γ : Type} (df : AsyncDataFrame α β)
    (ni : Source γ) :
    ((df.withIndex ni).resetIndex).getIndex.items
      = List.range ((df.withIndex ni).toArray.length) ∧
    (df.withIndex ni).resetIndex
      = (df.withIndex ni).withIndex
          (Source.ofArray (List.range ((df.withIndex ni).toArray.length))) ∧
    ((df.withIndex ni).resetIndex).toPairs.length = (df.withIndex ni).toArray.length := by
  refine ⟨rfl, rfl, ?_⟩
  simp [AsyncDataFrame.withIndex, AsyncDataFrame.resetIndex, AsyncDataFrame.toPairs,
    AsyncDataFrame.toArray, AsyncDataFrame.asyncIterate, Source.ofArray]

/-- C7: `getSeries` on an absent column name itself returns a series without
raising — the view it builds captures the dataframe's pieces as usual — and
the missing-column error surfaces exactly when that derived series is first
iterated / materialized. -/
theorem getSeries_missing_column_errors_on_iteration {α V : Type}
    (df : AsyncDataFrame α (Row V)) (name : String) (h : name ∉ df.columnNames) :
    (df.getSeries name).index = df.index ∧
    (df.getSeries name).columnName = name ∧
    (df.getSeries name).toArray = Except.error (DFError.missingColumn name) := by
  refine ⟨rfl, rfl, ?_⟩
  simp [AsyncDataFrame.getSeries, AsyncSeries.toArray, h]

/-- Witness for C7 at the spec scenario
`new DataFrame({columnNames:['x'], values:[{x:1},{x:2}]}).getSeries('y')`. -/
theorem getSeries_missing_column_errors_on_iteration_witness :
    ((AsyncDataFrame.fromValues ([[("x", 1)], [("x", 2)]] : List (Row Int))
        ["x"]).getSeries "y").toArray
      = Except.error (DFError.missingColumn "y") :=
  (getSeries_missing_column_errors_on_iteration
    (AsyncDataFrame.fromValues ([[("x", 1)], [("x", 2)]] : List (Row Int)) ["x"])
    "y" (by decide)).2.2

/-- C8: the table `bake()` returns is restartable and deterministic on
re-iteration — draining its value sequence twice yields the full original
value sequence both times — while a dataframe backed by a single-use source
yields an empty sequence on its own second drain. -/
theorem bake_restartable_reiteration {α β : Type} (df : AsyncDataFrame α β) :
    ((df.bake).1.drainArray.1 = df.toArray ∧
      ((df.bake).1.drainArray.2).drainArray.1 = df.toArray) ∧
    (df.values.restartable = false → ((df.drainArray.2).drainArray.1 = [])) := by
  constructor
  · constructor <;>
      simp [AsyncDataFrame.bake, DataFrame.drainArray, AsyncDataFrame.toArray,
        AsyncDataFrame.asyncIterate, Source.drain, Source.ofArray]
  · intro h
    simp [AsyncDataFrame.drainArray, Source.drain, h]

/-- Witness for C8 at a concrete dataframe over a single-use source. -/
theorem bake_restartable_reiteration_witness :
    (((⟨Source.ofArray [0], ⟨[(9 : Int)], false⟩, defaultColumnNames⟩ :
        AsyncDataFrame Nat Int).drainArray.2).drainArray.1 = []) :=
  (bake_restartable_reiteration
    (⟨Source.ofArray [0], ⟨[(9 : Int)], false⟩, defaultColumnNames⟩ :
      AsyncDataFrame Nat Int)).2 (by decide)

/-- C9: `toRows()` projects each row in iteration order into a column-ordered
array: for row `i` and column position `j`, the `j`-th element of the `i`-th
produced array is the value row `i` holds for column name `C[j]`. -/
theorem toRows_projects_columns_in_order {α V : Type} (df : AsyncDataFrame α (Row V))
    (i j : Nat) (r : Row V) (c : String)
    (hi : df.values.items[i]? = some r) (hj : df.columnNames[j]? = some c) :
    (df.toRows[i]?).bind (fun row => row[j]?) = some (Row.field r c) := by
  simp [AsyncDataFrame.toRows, List.getElem?_map, hi, hj]

/-- Witness for C9 at a one-row, two-column dataframe. -/
theorem toRows_projects_columns_in_order_witness :
    (((AsyncDataFrame.fromValues ([[("x", 1), ("y", 2)]] : List (Row Int))
        ["x", "y"]).toRows[0]?).bind (fun row => row[1]?))
      = some (Row.field ([("x", 1), ("y", 2)] : Row Int) "y") :=
  toRows_projects_columns_in_order
    (AsyncDataFrame.fromValues ([[("x", 1), ("y", 2)]] : List (Row Int)) ["x", "y"])
    0 1 ([("x", 1), ("y", 2)] : Row Int) "y" (by decide) (by decide)

/-- Witness for C10 at a concrete two-row dataframe. -/
theorem asyncIterator_yields_values_witness :
    (AsyncDataFrame.fromArray ([5, 6] : List Int)).toPairs.map Prod.snd
      = (AsyncDataFrame.fromArray ([5, 6] : List Int)).asyncIterate :=
  (asyncIterator_yields_values (AsyncDataFrame.fromArray ([5, 6] : List Int))).2 (by decide)

end DataForge
